import Mathlib

/-!
Verification of the ShopperInsights clickstream analytics module.

The Python source (ShopperInsights/utils.py and main.py) is shallowly
embedded below.  A pandas DataFrame of validated clickstream events is
modelled as a list of `Event` records in original row order; timestamps
are modelled as integer instants (the source only compares, subtracts and
buckets them, so any ordered instant type is faithful).  Pandas groupby
sorts its group keys, value_counts sorts by descending count, and
sort_values with two keys performs a stable lexicographic sort; all three
are reproduced explicitly with an insertion sort.  Rational numbers stand
in for Python floats: every division the analysed claims touch is exact.
-/

/-- One validated row of the clickstream table: the nine required columns
of utils.py, with Timestamp already coerced to an ordered instant. -/
structure Event where
  user_id : String
  session_id : String
  timestamp : Int
  page_type : String
  product_id : String
  category : String
  action : String
  device_type : String
  platform : String
deriving DecidableEq, Repr

/-- Lexicographic comparison of strings by code points, the order pandas
uses when sorting string group keys. -/
def strDataLe (a b : String) : Prop := a.data ≤ b.data

instance : DecidableRel strDataLe :=
  fun a b => inferInstanceAs (Decidable (a.data ≤ b.data))

instance : IsTrans String strDataLe := ⟨fun _ _ _ h1 h2 => le_trans h1 h2⟩

instance : IsTotal String strDataLe := ⟨fun a b => le_total a.data b.data⟩

/-- Lexicographic order on pairs of strings, the sort order of a pandas
groupby over two string columns. -/
def pairKeyLe (p q : String × String) : Prop :=
  toLex (p.1.data, p.2.data) ≤ toLex (q.1.data, q.2.data)

instance : DecidableRel pairKeyLe :=
  fun p q => inferInstanceAs (Decidable (toLex (p.1.data, p.2.data) ≤ toLex (q.1.data, q.2.data)))

instance : IsTrans (String × String) pairKeyLe := ⟨fun _ _ _ h1 h2 => le_trans h1 h2⟩

instance : IsTotal (String × String) pairKeyLe := ⟨fun p q => le_total _ _⟩

/-- Descending-count order used by pandas value_counts. -/
def countGe {α : Type} (x y : α × Nat) : Prop := y.2 ≤ x.2

instance {α : Type} : DecidableRel (countGe (α := α)) := fun x y => Nat.decLe _ _

instance {α : Type} : IsTrans (α × Nat) countGe := ⟨fun _ _ _ h1 h2 => le_trans h2 h1⟩

instance {α : Type} : IsTotal (α × Nat) countGe := ⟨fun x y => le_total y.2 x.2⟩

/-- Group keys of a pandas groupby: distinct values in ascending order. -/
def sortedKeys (l : List String) : List String := List.insertionSort strDataLe l.dedup

/-- pandas value_counts: occurrence count of every distinct value, ordered
by descending count (stable in first-occurrence order among ties). -/
def valueCounts {α : Type} [DecidableEq α] (l : List α) : List (α × Nat) :=
  List.insertionSort countGe (l.dedup.map (fun k => (k, l.count k)))

/-- Error kinds surfaced by load_and_validate_data: a missing required
column, or any exception caught by its try block (malformed CSV or an
unparseable Timestamp value). -/
inductive ErrKind
  | parseError
  | validationError
deriving DecidableEq, Repr

/-- Raw tabular input handed to the loader: either a CSV that pandas
read_csv rejects, or a parsed rectangular table of string cells. -/
inductive RawInput
  | malformed
  | table (cols : List String) (rows : List (List String))

/-- The required_columns list of load_and_validate_data. -/
def required_columns : List String :=
  ["User_ID", "Session_ID", "Timestamp", "Page_Type", "Product_ID",
   "Category", "Action", "Device_Type", "Platform"]

/-- Cell of a raw row under a named column. -/
def cellOf (cols : List String) (row : List String) (c : String) : String :=
  row.getD (cols.indexOf c) ""

/-- Model of pd.to_datetime on one cell: a non-empty digit string is an
instant, anything else fails to parse. -/
def parseTimestamp (s : String) : Option Int :=
  if s.data ≠ [] ∧ s.data.all (fun c => c.isDigit) then
    some (s.data.foldl (fun n c => 10 * n + ((c.toNat : Int) - 48)) 0)
  else none

/-- Build one validated Event from a raw row: the Timestamp cell is
coerced, every other cell passes through as a string. -/
def buildEvent (cols : List String) (row : List String) : Option Event :=
  match parseTimestamp (cellOf cols row "Timestamp") with
  | none => none
  | some ts => some
      { user_id := cellOf cols row "User_ID"
        session_id := cellOf cols row "Session_ID"
        timestamp := ts
        page_type := cellOf cols row "Page_Type"
        product_id := cellOf cols row "Product_ID"
        category := cellOf cols row "Category"
        action := cellOf cols row "Action"
        device_type := cellOf cols row "Device_Type"
        platform := cellOf cols row "Platform" }

/-- Option-valued traversal, written out so its pointwise behaviour can be
proved by structural induction. -/
def mapOption {α β : Type} (f : α → Option β) : List α → Option (List β)
  | [] => some []
  | x :: xs =>
    match f x, mapOption f xs with
    | some y, some ys => some (y :: ys)
    | _, _ => none

/-- load_and_validate_data of utils.py: returns a pair of an optional
validated table and an optional error, exactly one of which is present.
read_csv failure is the malformed case; then the required-column check;
then Timestamp coercion, whose failure lands in the same except branch as
read_csv failure. -/
def load_and_validate_data : RawInput → Option (List Event) × Option ErrKind
  | RawInput.malformed => (none, some ErrKind.parseError)
  | RawInput.table cols rows =>
    if (∀ c ∈ required_columns, c ∈ cols) then
      match mapOption (buildEvent cols) rows with
      | some evs => (some evs, none)
      | none => (none, some ErrKind.parseError)
    else (none, some ErrKind.validationError)

/-- The Session_ID column. -/
def sessionIdsOf (df : List Event) : List String := df.map (fun e => e.session_id)

/-- The User_ID column. -/
def userIdsOf (df : List Event) : List String := df.map (fun e => e.user_id)

/-- nunique of the Session_ID column. -/
def totalSessions (df : List Event) : Nat := (sessionIdsOf df).dedup.length

/-- Rows of one session, in original row order. -/
def sessionGroup (df : List Event) (s : String) : List Event :=
  df.filter (fun e => e.session_id == s)

/-- Distinct session ids in pandas groupby key order. -/
def sessionKeys (df : List Event) : List String := sortedKeys (sessionIdsOf df)

/-- df.groupby of Session_ID size: the per-session row counts. -/
def sessionSizes (df : List Event) : List Nat :=
  (sessionKeys df).map (fun s => (sessionGroup df s).length)

/-- The bounce_rate numerator lookup of calculate_key_metrics: the
value-count table of session sizes indexed at the fixed key 1.  pandas
raises KeyError when the key is absent; the absent case is none. -/
def calculate_key_metrics_bounce_lookup (df : List Event) : Option Nat :=
  (valueCounts (sessionSizes df)).lookup 1

/-- bounce_rate of calculate_key_metrics; none models the KeyError. -/
def calculate_key_metrics_bounce_rate (df : List Event) : Option ℚ :=
  (calculate_key_metrics_bounce_lookup df).map
    (fun n => (n : ℚ) / (totalSessions df : ℚ) * 100)

/-- Per-session duration of analyze_clickstream session_stats: max
Timestamp minus min Timestamp of the group, in seconds. -/
def duration_seconds (g : List Event) : Int :=
  match g.map (fun e => e.timestamp) with
  | [] => 0
  | t :: ts => ts.foldl max t - ts.foldl min t

/-- page_views of a session group: its row count. -/
def page_views (g : List Event) : Nat := g.length

/-- unique_actions of a session group: its distinct Action count. -/
def unique_actions (g : List Event) : Nat := (g.map (fun e => e.action)).dedup.length

/-- avg_session_duration of analyze_clickstream. -/
def avg_session_duration (df : List Event) : ℚ :=
  (((sessionKeys df).map (fun s => ((duration_seconds (sessionGroup df s) : Int) : ℚ))).sum) /
    ((sessionKeys df).length : ℚ)

/-- avg_page_views of analyze_clickstream. -/
def avg_page_views (df : List Event) : ℚ :=
  (((sessionKeys df).map (fun s => ((sessionGroup df s).length : ℚ))).sum) /
    ((sessionKeys df).length : ℚ)

/-- Path key of one session: its Page_Type values joined with the arrow
separator in original row order. -/
def pathKey (g : List Event) : String :=
  String.intercalate "->" (g.map (fun e => e.page_type))

/-- Action-sequence key of one session. -/
def actionKey (g : List Event) : String :=
  String.intercalate "->" (g.map (fun e => e.action))

/-- Per-session path keys, one per distinct session. -/
def sessionPaths (df : List Event) : List String :=
  (sessionKeys df).map (fun s => pathKey (sessionGroup df s))

/-- Per-session action-sequence keys. -/
def sessionActionSeqs (df : List Event) : List String :=
  (sessionKeys df).map (fun s => actionKey (sessionGroup df s))

/-- common_paths of analyze_clickstream: value_counts of the per-session
path keys, head 10. -/
def common_paths (df : List Event) : List (String × Nat) :=
  (valueCounts (sessionPaths df)).take 10

/-- action_sequences of analyze_clickstream: value_counts head 10. -/
def action_sequences (df : List Event) : List (String × Nat) :=
  (valueCounts (sessionActionSeqs df)).take 10

/-- groupby shift of minus one within a session: the Page_Type of the next
later row carrying the same Session_ID, if any. -/
def nextInSession (e : Event) : List Event → Option String
  | [] => none
  | e2 :: es =>
    if e2.session_id == e.session_id then some e2.page_type
    else nextInSession e es

/-- The transition pair a row contributes: its Page_Type paired with its
next_page, or nothing when next_page is null. -/
def emitted (e : Event) (rest : List Event) : List (String × String) :=
  match nextInSession e rest with
  | some p => [(e.page_type, p)]
  | none => []

/-- All (Page_Type, next_page) pairs of rows whose next_page is not null,
in row order. -/
def transitionPairs : List Event → List (String × String)
  | [] => []
  | e :: es => emitted e es ++ transitionPairs es

/-- The transition count table of analyze_clickstream: groupby size over
the pair of columns, hence keyed in ascending lexicographic key order. -/
def transitions (df : List Event) : List ((String × String) × Nat) :=
  (List.insertionSort pairKeyLe (transitionPairs df).dedup).map
    (fun k => (k, (transitionPairs df).count k))

/-- top_transitions of analyze_clickstream: head 10 of the key-ordered
transition count table. -/
def top_transitions (df : List Event) : List ((String × String) × Nat) :=
  (transitions df).take 10

/-- Rows whose Action is Click. -/
def clickEvents (df : List Event) : List Event :=
  df.filter (fun e => e.action == "Click")

/-- The (Category, Page_Type) pair of every Click row. -/
def clickPairs (df : List Event) : List (String × String) :=
  (clickEvents df).map (fun e => (e.category, e.page_type))

/-- Distinct Click group keys in groupby key order. -/
def clickGroupKeys (df : List Event) : List (String × String) :=
  List.insertionSort pairKeyLe (clickPairs df).dedup

/-- Click count of one (Category, Page_Type) group. -/
def clickCount (df : List Event) (k : String × String) : Nat :=
  (clickPairs df).count k

/-- The sort key of the click-pattern sort_values call: Electronics
groups first, then descending click count, realised as a lexicographic
order on a rank and a dualised count. -/
def clickRel (x y : (String × String) × Nat) : Prop :=
  toLex ((if x.1.1 == "Electronics" then 0 else 1 : Nat), OrderDual.toDual x.2) ≤
    toLex ((if y.1.1 == "Electronics" then 0 else 1 : Nat), OrderDual.toDual y.2)

instance : DecidableRel clickRel :=
  fun x y => inferInstanceAs (Decidable
    (toLex ((if x.1.1 == "Electronics" then 0 else 1 : Nat), OrderDual.toDual x.2) ≤
      toLex ((if y.1.1 == "Electronics" then 0 else 1 : Nat), OrderDual.toDual y.2)))

instance : IsTrans ((String × String) × Nat) clickRel := ⟨fun _ _ _ h1 h2 => le_trans h1 h2⟩

instance : IsTotal ((String × String) × Nat) clickRel := ⟨fun x y => le_total _ _⟩

/-- The click count table sorted Electronics-first then by descending
count, the stable two-key sort_values of analyze_clickstream. -/
def click_counts_sorted (df : List Event) : List ((String × String) × Nat) :=
  List.insertionSort clickRel ((clickGroupKeys df).map (fun k => (k, clickCount df k)))

/-- click_patterns of analyze_clickstream: head 10 of the sorted click
count table, each group rendered as a labelled count. -/
def click_patterns (df : List Event) : List (String × Nat) :=
  ((click_counts_sorted df).take 10).map (fun x => (x.1.1 ++ " - " ++ x.1.2, x.2))

/-- The fixed funnel stage set of analyze_conversion_funnel, in order. -/
def funnelStageNames : List String := ["View", "Click", "Add to Cart", "Purchase"]

/-- Distinct-session count of the rows whose Action equals the stage. -/
def stageCount (df : List Event) (a : String) : Nat :=
  ((df.filter (fun e => e.action == a)).map (fun e => e.session_id)).dedup.length

/-- funnel_stages of analyze_conversion_funnel. -/
def analyze_conversion_funnel_stages (df : List Event) : List (String × Nat) :=
  funnelStageNames.map (fun a => (a, stageCount df a))

/-- funnel_rates of analyze_conversion_funnel: stage count over total
distinct sessions, times one hundred. -/
def analyze_conversion_funnel_rates (df : List Event) : List (String × ℚ) :=
  funnelStageNames.map
    (fun a => (a, (stageCount df a : ℚ) / (totalSessions df : ℚ) * 100))

/-- Uncaught Python exceptions the analytic passes can raise, next to the
explicit InsufficientDataError kind the design document asks for. -/
inductive PyError
  | zeroDivision
  | sklearnValueError
  | insufficientData
deriving DecidableEq, Repr

/-- analyze_conversion_funnel as executed: with zero distinct sessions the
rate comprehension divides by zero and the call raises ZeroDivisionError;
otherwise both mappings are returned. -/
def analyze_conversion_funnel_run (df : List Event) :
    Except PyError (List (String × Nat) × List (String × ℚ)) :=
  if totalSessions df = 0 then Except.error PyError.zeroDivision
  else Except.ok (analyze_conversion_funnel_stages df, analyze_conversion_funnel_rates df)

/-- groupby first of Page_Type per session: the Page_Type of the first row
of the session in original row order. -/
def entry_page (df : List Event) (s : String) : Option String :=
  ((sessionGroup df s).head?).map (fun e => e.page_type)

/-- groupby last of Page_Type per session. -/
def exit_page (df : List Event) (s : String) : Option String :=
  ((sessionGroup df s).getLast?).map (fun e => e.page_type)

/-- top_entry_pages of analyze_session_metrics: value_counts of the
per-session entry pages, head 5. -/
def top_entry_pages (df : List Event) : List (String × Nat) :=
  (valueCounts ((sessionKeys df).filterMap (fun s => entry_page df s))).take 5

/-- top_exit_pages of analyze_session_metrics: head 5. -/
def top_exit_pages (df : List Event) : List (String × Nat) :=
  (valueCounts ((sessionKeys df).filterMap (fun s => exit_page df s))).take 5

/-- depth_distribution of analyze_session_metrics: value_counts of the
session sizes, head 10. -/
def depth_distribution (df : List Event) : List (Nat × Nat) :=
  (valueCounts (sessionSizes df)).take 10

/-- Rows of one user. -/
def userGroup (df : List Event) (u : String) : List Event :=
  df.filter (fun e => e.user_id == u)

/-- The per-user feature vector of segment_users: distinct session count,
Purchase count, distinct category count, distinct platform count. -/
def userFeature (df : List Event) (u : String) : Nat × Nat × Nat × Nat :=
  (((userGroup df u).map (fun e => e.session_id)).dedup.length,
   ((userGroup df u).filter (fun e => e.action == "Purchase")).length,
   ((userGroup df u).map (fun e => e.category)).dedup.length,
   ((userGroup df u).map (fun e => e.platform)).dedup.length)

/-- The user_features table of segment_users, keyed in groupby order. -/
def user_features (df : List Event) : List (String × (Nat × Nat × Nat × Nat)) :=
  (sortedKeys (userIdsOf df)).map (fun u => (u, userFeature df u))

/-- segment_users as executed: with fewer distinct users than the fixed
four clusters, KMeans fit raises ValueError (documented sklearn behaviour
when n_samples is below n_clusters); the code has no guard, so the call
propagates that exception.  On the non-error path the exact integer
feature table is returned; the floating-point standardisation and the
seeded centroid iteration that produce the segment labels are outside
this embedding and no claim below depends on them. -/
def segment_users_run (df : List Event) :
    Except PyError (List (String × (Nat × Nat × Nat × Nat))) :=
  if (userIdsOf df).dedup.length < 4 then Except.error PyError.sklearnValueError
  else Except.ok (user_features df)

/-- Observable state of the shared DataFrame: the nine validated columns
as event rows, plus the two columns the passes add in place. -/
structure DfState where
  events : List Event
  next_page : Option (List (Option String))
  hour : Option (List Int)
deriving DecidableEq, Repr

/-- The next_page column analyze_clickstream assigns into the frame. -/
def withNextColumn : List Event → List (Option String)
  | [] => []
  | e :: es => nextInSession e es :: withNextColumn es

/-- Effect of analyze_clickstream on the shared frame: the assignment of
the next_page column mutates it in place. -/
def analyze_clickstream_effect (d : DfState) : DfState :=
  { d with next_page := some (withNextColumn d.events) }

/-- Effect of analyze_user_behavior on the shared frame: the Hour column
assignment mutates it in place. -/
def analyze_user_behavior_effect (d : DfState) : DfState :=
  { d with hour := some (d.events.map (fun e => e.timestamp / 3600 % 24)) }

/-- analyze_conversion_funnel reads the frame and writes nothing. -/
def analyze_conversion_funnel_effect (d : DfState) : DfState := d

/-- analyze_session_metrics reads the frame and writes nothing. -/
def analyze_session_metrics_effect (d : DfState) : DfState := d

/-- The named mappings main.py consumes from the three passes it runs. -/
structure AppOutput where
  avg_duration : ℚ
  avg_views : ℚ
  paths : List (String × Nat)
  sequences : List (String × Nat)
  trans_counts : List ((String × String) × Nat)
  clicks : List (String × Nat)
  stages : List (String × Nat)
  rates : List (String × ℚ)
  entries : List (String × Nat)
  exits : List (String × Nat)
  depths : List (Nat × Nat)

/-- The analytic passes main.py runs on a validated table. -/
def runAnalyses (df : List Event) : AppOutput :=
  { avg_duration := avg_session_duration df
    avg_views := avg_page_views df
    paths := common_paths df
    sequences := action_sequences df
    trans_counts := top_transitions df
    clicks := click_patterns df
    stages := analyze_conversion_funnel_stages df
    rates := analyze_conversion_funnel_rates df
    entries := top_entry_pages df
    exits := top_exit_pages df
    depths := depth_distribution df }

/-- The uploaded-file handler of main.py: on a loader error the error is
displayed and no analytic pass runs; otherwise every pass runs. -/
def runApp (input : RawInput) : Option AppOutput × Option ErrKind :=
  match load_and_validate_data input with
  | (some df, none) => (some (runAnalyses df), none)
  | (_, e) => (none, e)

/-- Specification-side reading of a funnel stage count: the number of
distinct sessions containing at least one event with the given Action. -/
def sessionsWithAction (df : List Event) (a : String) : Nat :=
  ((sessionIdsOf df).dedup.filter
    (fun s => df.any (fun e => e.session_id == s && e.action == a))).length

/-- Specification-side adjacent pairs of a page sequence. -/
def adjPairs : List String → List (String × String)
  | [] => []
  | [_] => []
  | a :: b :: rest => (a, b) :: adjPairs (b :: rest)

/-- The transition pairs contributed by the rows of one session, scanning
the whole table in row order. -/
def sessPairs : List Event → String → List (String × String)
  | [], _ => []
  | e :: es, s => (if e.session_id == s then emitted e es else []) ++ sessPairs es s

/-- Event row over the fixed filler columns the claims do not vary. -/
def mkEvent (u s : String) (t : Int) (pg cat act : String) : Event :=
  { user_id := u, session_id := s, timestamp := t, page_type := pg,
    product_id := "P1", category := cat, action := act,
    device_type := "Desktop", platform := "Web" }

/-- Two sessions, exactly one Purchase event. -/
def dfC1 : List Event :=
  [mkEvent "U1" "S1" 0 "Home" "Books" "View",
   mkEvent "U2" "S2" 10 "Checkout" "Books" "Purchase"]

/-- A table whose only session holds a single event. -/
def dfC2 : List Event := [mkEvent "U1" "S1" 5 "Home" "Books" "View"]

/-- The path scenario: one session with page sequence Home, Product,
Cart, Home in row order. -/
def dfC3 : List Event :=
  [mkEvent "U1" "S1" 0 "Home" "Books" "View",
   mkEvent "U1" "S1" 1 "Product" "Books" "Click",
   mkEvent "U1" "S1" 2 "Cart" "Books" "Add to Cart",
   mkEvent "U1" "S1" 3 "Home" "Books" "View"]

/-- Page sequence giving twelve distinct transition pairs, where the
lexicographically largest pair is the only one occurring twice. -/
def dfC4pages : List String :=
  ["A", "B", "C", "D", "E", "F", "G", "H", "I", "J", "K", "Z", "Z", "Z"]

/-- One session visiting dfC4pages in row order. -/
def dfC4 : List Event := dfC4pages.map (fun p => mkEvent "U1" "S1" 0 p "Books" "View")

/-- A fresh frame state before any pass has run. -/
def dStateC5 : DfState := { events := dfC2, next_page := none, hour := none }

/-- Three distinct users, fewer than the fixed four clusters. -/
def dfThreeUsers : List Event :=
  [mkEvent "U1" "S1" 0 "Home" "Books" "View",
   mkEvent "U2" "S2" 1 "Home" "Books" "View",
   mkEvent "U3" "S3" 2 "Home" "Books" "View"]

/-- Three Books clicks against one Electronics click. -/
def dfC7 : List Event :=
  [mkEvent "U1" "S1" 0 "Home" "Books" "Click",
   mkEvent "U1" "S1" 1 "Home" "Books" "Click",
   mkEvent "U1" "S1" 2 "Home" "Books" "Click",
   mkEvent "U1" "S1" 3 "Product" "Electronics" "Click"]

/-- A non-empty table whose only session has two events, so no session of
size one exists. -/
def dfC9 : List Event :=
  [mkEvent "U1" "S1" 0 "Home" "Books" "View",
   mkEvent "U1" "S1" 9 "Cart" "Books" "View"]

/-- A raw table missing most required columns. -/
def rawMissingCol : RawInput := RawInput.table ["User_ID"] [["u"]]

/-- A raw table with all required columns and one unparseable Timestamp. -/
def rawBadTs : RawInput :=
  RawInput.table required_columns
    [["u1", "s1", "xx", "Home", "p1", "Books", "View", "Desktop", "Web"]]

/-- C1 statement: each funnel stage count is the distinct-session count of
its Action, bounded by the total distinct sessions; every rate lies
between zero and one hundred; and with exactly two distinct sessions and
exactly one Purchase event the Purchase stage counts one session at a
rate of fifty per cent. -/
def ClaimC1 (df : List Event) : Prop :=
  (∀ a, stageCount df a = sessionsWithAction df a) ∧
  (∀ a, stageCount df a ≤ totalSessions df) ∧
  (analyze_conversion_funnel_stages df =
    funnelStageNames.map (fun a => (a, sessionsWithAction df a))) ∧
  (∀ p ∈ analyze_conversion_funnel_rates df, 0 ≤ p.2 ∧ p.2 ≤ 100) ∧
  ((df.filter (fun e => e.action == "Purchase")).length = 1 → totalSessions df = 2 →
    stageCount df "Purchase" = 1 ∧
    ("Purchase", (50 : ℚ)) ∈ analyze_conversion_funnel_rates df)

/-- C2 statement: per-session aggregates of a present session. -/
def ClaimC2 (df : List Event) (s : String) : Prop :=
  sessionGroup df s ≠ [] ∧
  0 ≤ duration_seconds (sessionGroup df s) ∧
  (∃ tmax ∈ (sessionGroup df s).map (fun e => e.timestamp),
    ∃ tmin ∈ (sessionGroup df s).map (fun e => e.timestamp),
      duration_seconds (sessionGroup df s) = tmax - tmin ∧
      ∀ t ∈ (sessionGroup df s).map (fun e => e.timestamp), tmin ≤ t ∧ t ≤ tmax) ∧
  page_views (sessionGroup df s) = (sessionGroup df s).length ∧
  unique_actions (sessionGroup df s) =
    ((sessionGroup df s).map (fun e => e.action)).dedup.length ∧
  (∃ e, (sessionGroup df s).head? = some e ∧ entry_page df s = some e.page_type) ∧
  (∃ e, (sessionGroup df s).getLast? = some e ∧ exit_page df s = some e.page_type) ∧
  ((sessionGroup df s).length = 1 →
    duration_seconds (sessionGroup df s) = 0 ∧
    page_views (sessionGroup df s) = 1 ∧
    entry_page df s = exit_page df s)

/-- C3 statement: transition counts decompose into per-session adjacent
pairs, path keys join Page_Type values in row order, short sessions give
no pairs, and the concrete scenario holds. -/
def ClaimC3 : Prop :=
  (∀ df : List Event, ∀ p : String × String,
    (transitionPairs df).count p =
      ∑ s ∈ (sessionIdsOf df).toFinset,
        (adjPairs ((sessionGroup df s).map (fun e => e.page_type))).count p) ∧
  (∀ df : List Event, sessionPaths df =
    (sessionKeys df).map
      (fun s => String.intercalate "->" ((sessionGroup df s).map (fun e => e.page_type)))) ∧
  (∀ df : List Event, ∀ s : String, (sessionGroup df s).length ≤ 1 →
    adjPairs ((sessionGroup df s).map (fun e => e.page_type)) = []) ∧
  ("Home->Product->Cart->Home", 1) ∈ common_paths dfC3 ∧
  (("Home", "Product"), 1) ∈ transitions dfC3 ∧
  (("Product", "Cart"), 1) ∈ transitions dfC3 ∧
  (("Cart", "Home"), 1) ∈ transitions dfC3

/-- C4 counterexample statement: on dfC4 the kept entry for pair A B has
count one, yet the pair Z Z with count two is not kept. -/
def ClaimC4Counter : Prop :=
  (("A", "B"), 1) ∈ top_transitions dfC4 ∧
  (∀ x ∈ top_transitions dfC4, x.1 ≠ ("Z", "Z")) ∧
  (("Z", "Z"), 2) ∈ transitions dfC4

/-- C4 amended statement: top_transitions is the head ten of the
transition table in ascending lexicographic key order with exact positive
counts, so every kept key precedes every dropped key in key order. -/
def ClaimC4Amended (df : List Event) : Prop :=
  top_transitions df = (transitions df).take 10 ∧
  (top_transitions df).length ≤ 10 ∧
  List.Pairwise (fun x y => pairKeyLe x.1 y.1) (transitions df) ∧
  (∀ x ∈ transitions df, x.2 = (transitionPairs df).count x.1 ∧ 1 ≤ x.2) ∧
  (∀ x ∈ top_transitions df, ∀ y ∈ transitions df,
    y ∉ top_transitions df → pairKeyLe x.1 y.1)

/-- C5 counterexample statement: analyze_clickstream changes the shared
frame. -/
def ClaimC5Counter : Prop := analyze_clickstream_effect dStateC5 ≠ dStateC5

/-- C5 amended statement: no pass touches the nine validated columns, the
funnel and session-metric passes touch nothing at all, and every output
is computed from the validated rows alone, so pass order cannot change
any observable output. -/
def ClaimC5Amended : Prop :=
  (∀ d : DfState, (analyze_clickstream_effect d).events = d.events) ∧
  (∀ d : DfState, (analyze_user_behavior_effect d).events = d.events) ∧
  (∀ d : DfState, analyze_conversion_funnel_effect d = d) ∧
  (∀ d : DfState, analyze_session_metrics_effect d = d) ∧
  (∀ d : DfState, runAnalyses ((analyze_clickstream_effect d).events) = runAnalyses d.events) ∧
  (∀ d : DfState, runAnalyses ((analyze_user_behavior_effect d).events) = runAnalyses d.events)

/-- C6 statement: on three users segmentation propagates the sklearn
ValueError, and on zero sessions the funnel raises ZeroDivisionError;
neither is the explicit InsufficientDataError the design asks for. -/
def ClaimC6 : Prop :=
  segment_users_run dfThreeUsers = Except.error PyError.sklearnValueError ∧
  analyze_conversion_funnel_run [] = Except.error PyError.zeroDivision ∧
  PyError.sklearnValueError ≠ PyError.insufficientData ∧
  PyError.zeroDivision ≠ PyError.insufficientData

/-- C7 statement: click_patterns renders the head ten of the click-count
table, ordered Electronics first and by descending count inside each
partition, with exact positive counts of the Click groups. -/
def ClaimC7 (df : List Event) : Prop :=
  click_patterns df =
    ((click_counts_sorted df).take 10).map (fun x => (x.1.1 ++ " - " ++ x.1.2, x.2)) ∧
  (click_patterns df).length ≤ 10 ∧
  List.Pairwise
    (fun x y => (y.1.1 = "Electronics" → x.1.1 = "Electronics") ∧
      ((x.1.1 = "Electronics" ↔ y.1.1 = "Electronics") → y.2 ≤ x.2))
    ((click_counts_sorted df).take 10) ∧
  (∀ x ∈ click_counts_sorted df,
    x.2 = clickCount df x.1 ∧ 1 ≤ x.2 ∧ x.1 ∈ clickPairs df)

/-- C8 statement: the loader returns a table or an error and never both,
classifies missing columns as validation errors and malformed input or
unparseable timestamps as parse errors, coerces only the Timestamp field
on success, and the handler runs no analytic pass on invalid input. -/
def ClaimC8 : Prop :=
  (∀ input, (load_and_validate_data input).1.isSome ↔
    (load_and_validate_data input).2 = none) ∧
  (load_and_validate_data RawInput.malformed = (none, some ErrKind.parseError)) ∧
  (∀ cols rows, ¬ (∀ c ∈ required_columns, c ∈ cols) →
    load_and_validate_data (RawInput.table cols rows) = (none, some ErrKind.validationError)) ∧
  (∀ cols rows, (∀ c ∈ required_columns, c ∈ cols) →
    (∃ row ∈ rows, parseTimestamp (cellOf cols row "Timestamp") = none) →
    load_and_validate_data (RawInput.table cols rows) = (none, some ErrKind.parseError)) ∧
  (∀ cols rows evs, load_and_validate_data (RawInput.table cols rows) = (some evs, none) →
    evs.length = rows.length ∧
    ∀ i (h1 : i < rows.length) (h2 : i < evs.length),
      (evs.get ⟨i, h2⟩).user_id = cellOf cols (rows.get ⟨i, h1⟩) "User_ID" ∧
      (evs.get ⟨i, h2⟩).session_id = cellOf cols (rows.get ⟨i, h1⟩) "Session_ID" ∧
      parseTimestamp (cellOf cols (rows.get ⟨i, h1⟩) "Timestamp") =
        some (evs.get ⟨i, h2⟩).timestamp ∧
      (evs.get ⟨i, h2⟩).page_type = cellOf cols (rows.get ⟨i, h1⟩) "Page_Type" ∧
      (evs.get ⟨i, h2⟩).product_id = cellOf cols (rows.get ⟨i, h1⟩) "Product_ID" ∧
      (evs.get ⟨i, h2⟩).category = cellOf cols (rows.get ⟨i, h1⟩) "Category" ∧
      (evs.get ⟨i, h2⟩).action = cellOf cols (rows.get ⟨i, h1⟩) "Action" ∧
      (evs.get ⟨i, h2⟩).device_type = cellOf cols (rows.get ⟨i, h1⟩) "Device_Type" ∧
      (evs.get ⟨i, h2⟩).platform = cellOf cols (rows.get ⟨i, h1⟩) "Platform") ∧
  (∀ input e, (load_and_validate_data input).2 = some e → runApp input = (none, some e))

/-- C9 statement: when no session has exactly one event the fixed-key
lookup of the bounce-rate computation finds nothing, so the KeyError
branch is taken instead of treating absence as zero. -/
def ClaimC9 (df : List Event) : Prop :=
  calculate_key_metrics_bounce_lookup df = none ∧
  calculate_key_metrics_bounce_rate df = none

/-- C10 statement: every frequency in the seven output mappings is at
least one and every key names something that occurred in the input. -/
def ClaimC10 (df : List Event) : Prop :=
  (∀ x ∈ common_paths df, 1 ≤ x.2 ∧ x.1 ∈ sessionPaths df) ∧
  (∀ x ∈ action_sequences df, 1 ≤ x.2 ∧ x.1 ∈ sessionActionSeqs df) ∧
  (∀ x ∈ top_transitions df, 1 ≤ x.2 ∧ x.1 ∈ transitionPairs df) ∧
  (∀ x ∈ click_patterns df, 1 ≤ x.2 ∧
    ∃ e ∈ clickEvents df, x.1 = e.category ++ " - " ++ e.page_type) ∧
  (∀ x ∈ top_entry_pages df, 1 ≤ x.2 ∧
    x.1 ∈ (sessionKeys df).filterMap (fun s => entry_page df s)) ∧
  (∀ x ∈ top_exit_pages df, 1 ≤ x.2 ∧
    x.1 ∈ (sessionKeys df).filterMap (fun s => exit_page df s)) ∧
  (∀ x ∈ depth_distribution df, 1 ≤ x.2 ∧ x.1 ∈ sessionSizes df)

theorem mem_valueCounts {α : Type} [DecidableEq α] {l : List α} {x : α × Nat}
    (hx : x ∈ valueCounts l) : x.2 = l.count x.1 ∧ x.1 ∈ l := by
  unfold valueCounts at hx
  have hx2 : x ∈ l.dedup.map (fun k => (k, l.count k)) :=
    (List.perm_insertionSort countGe _).mem_iff.mp hx
  rcases List.mem_map.mp hx2 with ⟨k, hk, rfl⟩
  exact ⟨rfl, List.mem_dedup.mp hk⟩

theorem mem_sessionKeys {df : List Event} {s : String} :
    s ∈ sessionKeys df ↔ s ∈ sessionIdsOf df := by
  unfold sessionKeys sortedKeys
  rw [(List.perm_insertionSort strDataLe _).mem_iff]
  exact List.mem_dedup

theorem mem_transitions {df : List Event} {x : (String × String) × Nat}
    (hx : x ∈ transitions df) :
    x.2 = (transitionPairs df).count x.1 ∧ x.1 ∈ transitionPairs df := by
  unfold transitions at hx
  rcases List.mem_map.mp hx with ⟨k, hk, rfl⟩
  have hk2 : k ∈ (transitionPairs df).dedup :=
    (List.perm_insertionSort pairKeyLe _).mem_iff.mp hk
  exact ⟨rfl, List.mem_dedup.mp hk2⟩

theorem mem_clickCountsSorted {df : List Event} {x : (String × String) × Nat}
    (hx : x ∈ click_counts_sorted df) :
    x.2 = clickCount df x.1 ∧ x.1 ∈ clickPairs df := by
  unfold click_counts_sorted at hx
  have hx2 : x ∈ (clickGroupKeys df).map (fun k => (k, clickCount df k)) :=
    (List.perm_insertionSort clickRel _).mem_iff.mp hx
  rcases List.mem_map.mp hx2 with ⟨k, hk, rfl⟩
  refine ⟨rfl, ?_⟩
  unfold clickGroupKeys at hk
  exact List.mem_dedup.mp ((List.perm_insertionSort pairKeyLe _).mem_iff.mp hk)

theorem lookup_eq_none_of_keys_ne {α β : Type} [DecidableEq α] (l : List (α × β)) (k : α)
    (h : ∀ p ∈ l, p.1 ≠ k) : l.lookup k = none := by
  induction l with
  | nil => rfl
  | cons p t ih =>
    rcases p with ⟨a, b⟩
    have hne : a ≠ k := h (a, b) (List.mem_cons_self _ _)
    have hbeq : (k == a) = false := by simpa using fun h2 : k = a => hne h2.symm
    simp only [List.lookup, hbeq]
    exact ih (fun q hq => h q (List.mem_cons_of_mem _ hq))

/-- C9: the bounce-rate helper of calculate_key_metrics indexes the
session-size value-count table at the fixed key 1 with no existence
check, so on every non-empty input in which no session consists of
exactly one event the lookup finds nothing and the KeyError branch is
taken instead of treating the absent key as zero. -/
theorem claimC9 (df : List Event) (h0 : df ≠ [])
    (h1 : ∀ s ∈ sessionIdsOf df, (sessionGroup df s).length ≠ 1) : ClaimC9 df := by
  have hlk : calculate_key_metrics_bounce_lookup df = none := by
    unfold calculate_key_metrics_bounce_lookup
    apply lookup_eq_none_of_keys_ne
    intro p hp hp1
    obtain ⟨_, hm⟩ := mem_valueCounts hp
    unfold sessionSizes at hm
    rcases List.mem_map.mp hm with ⟨s, hs, hps⟩
    exact h1 s (mem_sessionKeys.mp hs) (by rw [hps, hp1])
  refine ⟨hlk, ?_⟩
  unfold calculate_key_metrics_bounce_rate
  rw [hlk]
  rfl

theorem claimC9_witness : dfC9 ≠ [] ∧ ClaimC9 dfC9 :=
  ⟨by decide, claimC9 dfC9 (by decide) (by decide)⟩

/-- C10: every frequency value in common_paths, action_sequences,
top_transitions, click_patterns, top_entry_pages, top_exit_pages and
depth_distribution is at least one, and every key records a path,
sequence, transition, click group, page or depth that actually occurred
in the input. -/
theorem claimC10 (df : List Event) : ClaimC10 df := by
  unfold ClaimC10
  refine ⟨?_, ?_, ?_, ?_, ?_, ?_, ?_⟩
  · intro x hx
    obtain ⟨hc, hm⟩ := mem_valueCounts (List.Sublist.mem hx (List.take_sublist _ _))
    refine ⟨?_, hm⟩
    rw [hc]
    exact List.count_pos_iff.mpr hm
  · intro x hx
    obtain ⟨hc, hm⟩ := mem_valueCounts (List.Sublist.mem hx (List.take_sublist _ _))
    refine ⟨?_, hm⟩
    rw [hc]
    exact List.count_pos_iff.mpr hm
  · intro x hx
    obtain ⟨hc, hm⟩ := mem_transitions (List.Sublist.mem hx (List.take_sublist _ _))
    refine ⟨?_, hm⟩
    rw [hc]
    exact List.count_pos_iff.mpr hm
  · intro x hx
    unfold click_patterns at hx
    rcases List.mem_map.mp hx with ⟨y, hy, rfl⟩
    obtain ⟨hc, hm⟩ := mem_clickCountsSorted (List.Sublist.mem hy (List.take_sublist _ _))
    constructor
    · rw [hc]
      exact List.count_pos_iff.mpr hm
    · unfold clickPairs at hm
      rcases List.mem_map.mp hm with ⟨e, he, hpe⟩
      exact ⟨e, he, by rw [← hpe]⟩
  · intro x hx
    obtain ⟨hc, hm⟩ := mem_valueCounts (List.Sublist.mem hx (List.take_sublist _ _))
    refine ⟨?_, hm⟩
    rw [hc]
    exact List.count_pos_iff.mpr hm
  · intro x hx
    obtain ⟨hc, hm⟩ := mem_valueCounts (List.Sublist.mem hx (List.take_sublist _ _))
    refine ⟨?_, hm⟩
    rw [hc]
    exact List.count_pos_iff.mpr hm
  · intro x hx
    obtain ⟨hc, hm⟩ := mem_valueCounts (List.Sublist.mem hx (List.take_sublist _ _))
    refine ⟨?_, hm⟩
    rw [hc]
    exact List.count_pos_iff.mpr hm

theorem claimC10_witness : ClaimC10 dfC3 := claimC10 dfC3

/-- C5 counterexample: running analyze_clickstream on a fresh frame
changes the frame, because the pass assigns a next_page column in place;
the claim that every pass leaves the event table exactly unchanged with
no column added is therefore false. -/
theorem claimC5_counterexample : ClaimC5Counter := by
  unfold ClaimC5Counter
  decide

/-- C5 amended: no analytic pass modifies the nine validated columns or
the row list, the funnel and session-metric passes write nothing at all,
and every output is a function of the validated rows alone, so the
passes may run in any order with no change in observable output; however
analyze_clickstream adds a next_page column and analyze_user_behavior
adds an Hour column to the shared frame in place. -/
theorem claimC5_amended : ClaimC5Amended :=
  ⟨fun _ => rfl, fun _ => rfl, fun _ => rfl, fun _ => rfl, fun _ => rfl, fun _ => rfl⟩

theorem claimC5_witness :
    runAnalyses ((analyze_clickstream_effect dStateC5).events) = runAnalyses dStateC5.events :=
  claimC5_amended.2.2.2.2.1 dStateC5

/-- C6: the code does not fail with an explicit InsufficientDataError in
either documented edge case.  With three distinct users, fewer than the
fixed four clusters, segment_users propagates the ValueError sklearn
raises inside KMeans; with zero sessions analyze_conversion_funnel
raises ZeroDivisionError while computing rates.  The specification names
these as cases that must fail with InsufficientDataError, and itself
notes the source does not guard the first, so the claim is right and the
code is wrong. -/
theorem claimC6_code_divergence : ClaimC6 :=
  ⟨rfl, rfl, by decide, by decide⟩

theorem stageCount_eq_sessionsWithAction (df : List Event) (a : String) :
    stageCount df a = sessionsWithAction df a := by
  classical
  unfold stageCount sessionsWithAction
  have hfin : ((df.filter (fun e => e.action == a)).map (fun e => e.session_id)).toFinset
      = ((sessionIdsOf df).dedup.filter
          (fun s => df.any (fun e => e.session_id == s && e.action == a))).toFinset := by
    ext s
    simp only [List.mem_toFinset, List.mem_map, List.mem_filter, List.mem_dedup,
      List.any_eq_true, Bool.and_eq_true, beq_iff_eq, sessionIdsOf]
    constructor
    · rintro ⟨e, ⟨he, ha⟩, rfl⟩
      exact ⟨⟨e, he, rfl⟩, ⟨e, he, rfl, ha⟩⟩
    · rintro ⟨-, e, he, rfl, ha⟩
      exact ⟨e, ⟨he, ha⟩, rfl⟩
  have h1 := List.card_toFinset
    ((df.filter (fun e => e.action == a)).map (fun e => e.session_id))
  have h2 : ((sessionIdsOf df).dedup.filter
        (fun s => df.any (fun e => e.session_id == s && e.action == a))).toFinset.card
      = ((sessionIdsOf df).dedup.filter
          (fun s => df.any (fun e => e.session_id == s && e.action == a))).length :=
    List.toFinset_card_of_nodup ((List.nodup_dedup _).filter _)
  rw [← h1, hfin, h2]

theorem stageCount_le_totalSessions (df : List Event) (a : String) :
    stageCount df a ≤ totalSessions df := by
  unfold stageCount totalSessions
  rw [← List.card_toFinset, ← List.card_toFinset]
  apply Finset.card_le_card
  intro s hs
  simp only [List.mem_toFinset, List.mem_map, List.mem_filter, sessionIdsOf] at hs ⊢
  rcases hs with ⟨e, ⟨he, _⟩, rfl⟩
  exact ⟨e, he, rfl⟩

theorem funnel_rate_bounds (df : List Event) (h : 1 ≤ totalSessions df) :
    ∀ p ∈ analyze_conversion_funnel_rates df, 0 ≤ p.2 ∧ p.2 ≤ 100 := by
  intro p hp
  unfold analyze_conversion_funnel_rates at hp
  rcases List.mem_map.mp hp with ⟨a, -, rfl⟩
  have hT : (0 : ℚ) < (totalSessions df : ℚ) := by
    exact_mod_cast Nat.lt_of_lt_of_le Nat.zero_lt_one h
  constructor
  · exact mul_nonneg (div_nonneg (by positivity) hT.le) (by norm_num)
  · have hle : (stageCount df a : ℚ) ≤ (totalSessions df : ℚ) := by
      exact_mod_cast stageCount_le_totalSessions df a
    have hdiv : (stageCount df a : ℚ) / (totalSessions df : ℚ) ≤ 1 :=
      (div_le_one hT).mpr hle
    calc (stageCount df a : ℚ) / (totalSessions df : ℚ) * 100
        ≤ 1 * 100 := by
          apply mul_le_mul_of_nonneg_right hdiv
          norm_num
      _ = 100 := by norm_num

theorem funnel_purchase_scenario (df : List Event)
    (hp : (df.filter (fun e => e.action == "Purchase")).length = 1)
    (ht : totalSessions df = 2) :
    stageCount df "Purchase" = 1 ∧
      ("Purchase", (50 : ℚ)) ∈ analyze_conversion_funnel_rates df := by
  obtain ⟨e, he⟩ := List.length_eq_one.mp hp
  have hsc : stageCount df "Purchase" = 1 := by
    unfold stageCount
    rw [he]
    simp
  refine ⟨hsc, ?_⟩
  unfold analyze_conversion_funnel_rates
  have hmem : ("Purchase" : String) ∈ funnelStageNames := by
    unfold funnelStageNames
    simp
  refine List.mem_map.mpr ⟨"Purchase", hmem, ?_⟩
  rw [hsc, ht]
  norm_num

/-- C1: each funnel stage counts the distinct sessions containing at
least one event with that Action, each count is bounded by the total
distinct sessions, every rate equals count over total times one hundred
and lies in the closed interval from zero to one hundred, and with two
distinct sessions and exactly one Purchase event the Purchase stage
counts one session at a rate of exactly fifty. -/
theorem claimC1 (df : List Event) (h : 1 ≤ totalSessions df) : ClaimC1 df := by
  unfold ClaimC1
  refine ⟨fun a => stageCount_eq_sessionsWithAction df a,
          fun a => stageCount_le_totalSessions df a, ?_,
          funnel_rate_bounds df h,
          fun hp ht => funnel_purchase_scenario df hp ht⟩
  unfold analyze_conversion_funnel_stages
  simp [stageCount_eq_sessionsWithAction]

theorem claimC1_witness : 1 ≤ totalSessions dfC1 ∧ ClaimC1 dfC1 :=
  ⟨by decide, claimC1 dfC1 (by decide)⟩

theorem le_foldl_max (t : Int) (l : List Int) : t ≤ l.foldl max t := by
  induction l generalizing t with
  | nil => exact le_refl t
  | cons a as ih => exact le_trans (le_max_left t a) (ih (max t a))

theorem foldl_min_le (t : Int) (l : List Int) : l.foldl min t ≤ t := by
  induction l generalizing t with
  | nil => exact le_refl t
  | cons a as ih => exact le_trans (ih (min t a)) (min_le_left t a)

theorem mem_le_foldl_max (t : Int) (l : List Int) : ∀ x ∈ l, x ≤ l.foldl max t := by
  induction l generalizing t with
  | nil => intro x hx; cases hx
  | cons a as ih =>
    intro x hx
    rcases List.mem_cons.mp hx with rfl | hx2
    · exact le_trans (le_max_right t x) (le_foldl_max _ _)
    · exact ih (max t a) x hx2

theorem foldl_min_le_mem (t : Int) (l : List Int) : ∀ x ∈ l, l.foldl min t ≤ x := by
  induction l generalizing t with
  | nil => intro x hx; cases hx
  | cons a as ih =>
    intro x hx
    rcases List.mem_cons.mp hx with rfl | hx2
    · simp only [List.foldl_cons]
      exact le_trans (foldl_min_le (min t x) as) (min_le_right t x)
    · exact ih (min t a) x hx2

theorem foldl_max_eq_or_mem (t : Int) (l : List Int) :
    l.foldl max t = t ∨ l.foldl max t ∈ l := by
  induction l generalizing t with
  | nil => left; rfl
  | cons a as ih =>
    rcases ih (max t a) with h | h
    · rcases max_choice t a with h2 | h2
      · left; rw [List.foldl_cons, h, h2]
      · right; rw [List.foldl_cons, h, h2]; exact List.mem_cons_self _ _
    · right; exact List.mem_cons_of_mem _ h

theorem foldl_min_eq_or_mem (t : Int) (l : List Int) :
    l.foldl min t = t ∨ l.foldl min t ∈ l := by
  induction l generalizing t with
  | nil => left; rfl
  | cons a as ih =>
    rcases ih (min t a) with h | h
    · rcases min_choice t a with h2 | h2
      · left; rw [List.foldl_cons, h, h2]
      · right; rw [List.foldl_cons, h, h2]; exact List.mem_cons_self _ _
    · right; exact List.mem_cons_of_mem _ h

/-- C2: for every session present in the table, duration_seconds is the
maximum minus the minimum timestamp of the group and is non-negative,
page_views is the event count, unique_actions the distinct Action count,
entry and exit page are the Page_Type of the first and last row of the
group in row order, and a single-event session has duration zero, one
page view, and identical entry and exit pages. -/
theorem claimC2 (df : List Event) (s : String) (h : s ∈ sessionIdsOf df) :
    ClaimC2 df s := by
  have hne : sessionGroup df s ≠ [] := by
    unfold sessionIdsOf at h
    rcases List.mem_map.mp h with ⟨e, he, rfl⟩
    intro hnil
    have hmem : e ∈ sessionGroup df e.session_id :=
      List.mem_filter.mpr ⟨he, by simp⟩
    rw [hnil] at hmem
    cases hmem
  obtain ⟨x, xs, hg⟩ : ∃ x xs, sessionGroup df s = x :: xs := by
    cases hgroup : sessionGroup df s with
    | nil => exact absurd hgroup hne
    | cons x xs => exact ⟨x, xs, rfl⟩
  have hdur : duration_seconds (sessionGroup df s) =
      (xs.map (fun e => e.timestamp)).foldl max x.timestamp -
        (xs.map (fun e => e.timestamp)).foldl min x.timestamp := by
    unfold duration_seconds
    rw [hg]
    rfl
  have hmax := le_foldl_max x.timestamp (xs.map (fun e => e.timestamp))
  have hmin := foldl_min_le x.timestamp (xs.map (fun e => e.timestamp))
  unfold ClaimC2
  refine ⟨hne, ?_, ?_, rfl, rfl, ?_, ?_, ?_⟩
  · rw [hdur]
    omega
  · refine ⟨(xs.map (fun e => e.timestamp)).foldl max x.timestamp, ?_,
      (xs.map (fun e => e.timestamp)).foldl min x.timestamp, ?_, hdur, ?_⟩
    · rw [hg]
      rcases foldl_max_eq_or_mem x.timestamp (xs.map (fun e => e.timestamp)) with h2 | h2
      · rw [h2]; simp
      · simp only [List.map_cons, List.mem_cons]; exact Or.inr h2
    · rw [hg]
      rcases foldl_min_eq_or_mem x.timestamp (xs.map (fun e => e.timestamp)) with h2 | h2
      · rw [h2]; simp
      · simp only [List.map_cons, List.mem_cons]; exact Or.inr h2
    · intro t ht
      rw [hg] at ht
      simp only [List.map_cons, List.mem_cons] at ht
      rcases ht with rfl | ht2
      · exact ⟨hmin, hmax⟩
      · exact ⟨foldl_min_le_mem _ _ t ht2, mem_le_foldl_max _ _ t ht2⟩
  · exact ⟨x, by rw [hg]; rfl, by unfold entry_page; rw [hg]; rfl⟩
  · obtain ⟨e, he⟩ : ∃ e, (sessionGroup df s).getLast? = some e := by
      rw [hg]
      exact ⟨(x :: xs).getLast (by simp), List.getLast?_eq_getLast _ _⟩
    exact ⟨e, he, by unfold exit_page; rw [he]; rfl⟩
  · intro hlen
    have hxs : xs = [] := by
      rw [hg] at hlen
      simpa using hlen
    subst hxs
    refine ⟨?_, by rw [hg]; rfl, ?_⟩
    · rw [hdur]
      simp
    · unfold entry_page exit_page
      rw [hg]
      simp

theorem claimC2_witness : "S1" ∈ sessionIdsOf dfC2 ∧ ClaimC2 dfC2 "S1" :=
  ⟨by decide, claimC2 dfC2 "S1" (by decide)⟩

theorem nextInSession_eq_filter_head (e : Event) (l : List Event) :
    nextInSession e l =
      ((l.filter (fun x => x.session_id == e.session_id)).head?).map
        (fun x => x.page_type) := by
  induction l with
  | nil => rfl
  | cons e2 es ih =>
    by_cases h : e2.session_id = e.session_id
    · have hb : (e2.session_id == e.session_id) = true := beq_iff_eq.mpr h
      simp [nextInSession, List.filter_cons, hb]
    · have hb : (e2.session_id == e.session_id) = false := by simpa using h
      simp [nextInSession, List.filter_cons, hb, ih]

theorem nextInSession_filter (e : Event) (l : List Event) (s : String)
    (h : e.session_id = s) :
    nextInSession e l =
      ((l.filter (fun x => x.session_id == s)).head?).map (fun x => x.page_type) := by
  subst h
  exact nextInSession_eq_filter_head e l

theorem sessPairs_eq_adjPairs (df : List Event) (s : String) :
    sessPairs df s =
      adjPairs ((df.filter (fun e => e.session_id == s)).map (fun e => e.page_type)) := by
  induction df with
  | nil => rfl
  | cons e es ih =>
    by_cases h : e.session_id = s
    · have hb : (e.session_id == s) = true := beq_iff_eq.mpr h
      simp only [sessPairs, hb, if_true, List.filter_cons, List.map_cons]
      rw [ih]
      cases hf : es.filter (fun x => x.session_id == s) with
      | nil =>
        have hemit : emitted e es = [] := by
          unfold emitted
          rw [nextInSession_filter e es s h, hf]
          rfl
        rw [hemit]
        simp [adjPairs]
      | cons f fs =>
        have hemit : emitted e es = [(e.page_type, f.page_type)] := by
          unfold emitted
          rw [nextInSession_filter e es s h, hf]
          rfl
        rw [hemit]
        simp [adjPairs]
    · have hb : (e.session_id == s) = false := by simpa using h
      simp only [sessPairs, hb, if_false, List.filter_cons, List.nil_append]
      simpa using ih

theorem transitionPairs_count_decomp (df : List Event) (p : String × String) :
    (transitionPairs df).count p =
      ∑ s ∈ (sessionIdsOf df).toFinset, (sessPairs df s).count p := by
  induction df with
  | nil => simp [transitionPairs, sessionIdsOf]
  | cons e es ih =>
    have hcons : transitionPairs (e :: es) = emitted e es ++ transitionPairs es := rfl
    have hfin : (sessionIdsOf (e :: es)).toFinset
        = insert e.session_id (sessionIdsOf es).toFinset := by
      simp [sessionIdsOf]
    have hpt : ∀ s, (sessPairs (e :: es) s).count p =
        (if s = e.session_id then (emitted e es).count p else 0) +
          (sessPairs es s).count p := by
      intro s
      by_cases h : e.session_id = s
      · have hb : (e.session_id == s) = true := beq_iff_eq.mpr h
        simp [sessPairs, hb, List.count_append, h.symm]
      · have hb : (e.session_id == s) = false := by simpa using h
        have h2 : ¬ (s = e.session_id) := fun hh => h hh.symm
        simp [sessPairs, hb, h2]
    rw [hcons, List.count_append, hfin]
    by_cases hmem : e.session_id ∈ (sessionIdsOf es).toFinset
    · rw [Finset.insert_eq_self.mpr hmem]
      have hsum : ∑ s ∈ (sessionIdsOf es).toFinset, (sessPairs (e :: es) s).count p
          = ∑ s ∈ (sessionIdsOf es).toFinset,
              ((if s = e.session_id then (emitted e es).count p else 0) +
                (sessPairs es s).count p) :=
        Finset.sum_congr rfl (fun s _ => hpt s)
      rw [hsum, Finset.sum_add_distrib, Finset.sum_ite_eq', if_pos hmem, ih]
    · rw [Finset.sum_insert hmem]
      have hnil : sessPairs es e.session_id = [] := by
        rw [sessPairs_eq_adjPairs]
        have hf : es.filter (fun x => x.session_id == e.session_id) = [] := by
          rw [List.filter_eq_nil_iff]
          intro a ha hcon
          apply hmem
          simp only [List.mem_toFinset, sessionIdsOf, List.mem_map]
          exact ⟨a, ha, by simpa using hcon⟩
        rw [hf]
        rfl
      have hsum : ∑ s ∈ (sessionIdsOf es).toFinset, (sessPairs (e :: es) s).count p
          = ∑ s ∈ (sessionIdsOf es).toFinset, (sessPairs es s).count p := by
        refine Finset.sum_congr rfl (fun s hs => ?_)
        rw [hpt s, if_neg, Nat.zero_add]
        intro hcon
        exact hmem (hcon ▸ hs)
      rw [hpt e.session_id, if_pos rfl, hnil, hsum, ih]
      simp

/-- C3: path keys join each session's Page_Type values in row order with
the arrow separator; the transition counts decompose exactly into the
adjacent pairs of each session taken separately, so no pair crosses a
session boundary and single-event sessions contribute nothing; and the
Home, Product, Cart, Home scenario yields the expected path key and the
three expected transition counts. -/
theorem claimC3 : ClaimC3 := by
  unfold ClaimC3
  refine ⟨?_, ?_, ?_, by decide, by decide, by decide, by decide⟩
  · intro df p
    rw [transitionPairs_count_decomp]
    exact Finset.sum_congr rfl (fun s _ => by rw [sessPairs_eq_adjPairs]; rfl)
  · intro df
    rfl
  · intro df s hlen
    cases hg : sessionGroup df s with
    | nil => rfl
    | cons x xs =>
      have hxs : xs = [] := by
        simp only [hg, List.length_cons] at hlen
        exact List.length_eq_zero.mp (by omega)
      subst hxs
      rfl

theorem claimC3_witness :
    ((transitionPairs dfC3).count ("Home", "Product") =
      ∑ s ∈ (sessionIdsOf dfC3).toFinset,
        (adjPairs ((sessionGroup dfC3 s).map (fun e => e.page_type))).count
          ("Home", "Product")) ∧
    adjPairs ((sessionGroup dfC2 "S1").map (fun e => e.page_type)) = [] :=
  ⟨claimC3.1 dfC3 ("Home", "Product"), claimC3.2.2.1 dfC2 "S1" (by decide)⟩

theorem transitions_key_sorted (df : List Event) :
    List.Pairwise (fun x y => pairKeyLe x.1 y.1) (transitions df) := by
  unfold transitions
  have hs : List.Sorted pairKeyLe
      (List.insertionSort pairKeyLe (transitionPairs df).dedup) :=
    List.sorted_insertionSort pairKeyLe _
  rw [List.pairwise_map]
  exact hs.imp (fun h => h)

/-- C4 counterexample: on dfC4 the pair A B is kept in top_transitions
with count one while the pair Z Z, whose count in the transition table is
two, is not kept, so top_transitions is not the ten highest-count pairs. -/
theorem claimC4_counterexample : ClaimC4Counter := by
  unfold ClaimC4Counter
  decide

/-- C4 amended: top_transitions holds at most ten entries, namely the
head ten of the transition count table, which is ordered by ascending
lexicographic (page_type, next_page) key, not by count; counts are the
exact positive occurrence counts, and every kept key precedes every
dropped key in key order. -/
theorem claimC4_amended (df : List Event) : ClaimC4Amended df := by
  unfold ClaimC4Amended
  have hsorted := transitions_key_sorted df
  refine ⟨rfl, ?_, hsorted, ?_, ?_⟩
  · unfold top_transitions
    rw [List.length_take]
    omega
  · intro x hx
    obtain ⟨hc, hm⟩ := mem_transitions hx
    refine ⟨hc, ?_⟩
    rw [hc]
    exact List.count_pos_iff.mpr hm
  · intro x hx y hy hyn
    simp only [top_transitions] at hx hyn
    have hsplit : transitions df =
        List.take 10 (transitions df) ++ List.drop 10 (transitions df) :=
      (List.take_append_drop _ _).symm
    have hP : List.Pairwise (fun a b => pairKeyLe a.1 b.1)
        (List.take 10 (transitions df) ++ List.drop 10 (transitions df)) := by
      rw [← hsplit]
      exact hsorted
    have hcross := (List.pairwise_append.mp hP).2.2
    have hyd : y ∈ List.drop 10 (transitions df) := by
      rcases List.mem_append.mp (by rw [← hsplit]; exact hy) with h | h
      · exact absurd h hyn
      · exact h
    exact hcross x hx y hyd

theorem claimC4_witness : ClaimC4Amended dfC4 := claimC4_amended dfC4

theorem clickRel_imp (x y : (String × String) × Nat) (h : clickRel x y) :
    (y.1.1 = "Electronics" → x.1.1 = "Electronics") ∧
    ((x.1.1 = "Electronics" ↔ y.1.1 = "Electronics") → y.2 ≤ x.2) := by
  unfold clickRel at h
  rw [Prod.Lex.le_iff] at h
  constructor
  · intro hy
    by_contra hx
    have hbx : (x.1.1 == "Electronics") = false := by simpa using hx
    have hby : (y.1.1 == "Electronics") = true := by simpa using hy
    simp [hbx, hby] at h
  · intro hiff
    by_cases hx : x.1.1 = "Electronics"
    · have hy := hiff.mp hx
      have hbx : (x.1.1 == "Electronics") = true := by simpa using hx
      have hby : (y.1.1 == "Electronics") = true := by simpa using hy
      simp [hbx, hby] at h
      exact h
    · have hy : ¬ y.1.1 = "Electronics" := fun hy => hx (hiff.mpr hy)
      have hbx : (x.1.1 == "Electronics") = false := by simpa using hx
      have hby : (y.1.1 == "Electronics") = false := by simpa using hy
      simp [hbx, hby] at h
      exact h

/-- C7: click_patterns is built from the Click rows grouped by Category
and Page_Type with exact positive counts; Electronics groups come before
all other groups regardless of count, each partition is internally in
descending count order, the head ten of that order are kept, and each
kept group is rendered as its category and page type joined by a dash. -/
theorem claimC7 (df : List Event) : ClaimC7 df := by
  unfold ClaimC7
  refine ⟨rfl, ?_, ?_, fun x hx => ?_⟩
  · unfold click_patterns
    rw [List.length_map, List.length_take]
    omega
  · have hs : List.Sorted clickRel (click_counts_sorted df) := by
      unfold click_counts_sorted
      exact List.sorted_insertionSort clickRel _
    have hp : List.Pairwise clickRel ((click_counts_sorted df).take 10) :=
      List.Pairwise.sublist (List.take_sublist _ _) hs
    exact hp.imp (fun h => clickRel_imp _ _ h)
  · obtain ⟨hc, hm⟩ := mem_clickCountsSorted hx
    refine ⟨hc, ?_, hm⟩
    rw [hc]
    unfold clickCount
    exact List.count_pos_iff.mpr hm

theorem claimC7_witness : ClaimC7 dfC7 := claimC7 dfC7

theorem mapOption_some_length {α β : Type} (f : α → Option β) (l : List α) (ys : List β)
    (h : mapOption f l = some ys) : ys.length = l.length := by
  induction l generalizing ys with
  | nil => cases h; rfl
  | cons x xs ih =>
    unfold mapOption at h
    cases hfx : f x with
    | none => rw [hfx] at h; cases h
    | some y =>
      rw [hfx] at h
      cases hrec : mapOption f xs with
      | none => rw [hrec] at h; cases h
      | some zs =>
        rw [hrec] at h
        cases h
        simp [ih zs hrec]

theorem mapOption_some_get {α β : Type} (f : α → Option β) (l : List α) (ys : List β)
    (h : mapOption f l = some ys) :
    ∀ i (h1 : i < l.length) (h2 : i < ys.length),
      f (l.get ⟨i, h1⟩) = some (ys.get ⟨i, h2⟩) := by
  induction l generalizing ys with
  | nil => intro i h1 h2; simp at h1
  | cons x xs ih =>
    unfold mapOption at h
    cases hfx : f x with
    | none => rw [hfx] at h; cases h
    | some y =>
      rw [hfx] at h
      cases hrec : mapOption f xs with
      | none => rw [hrec] at h; cases h
      | some zs =>
        rw [hrec] at h
        cases h
        intro i h1 h2
        cases i with
        | zero => simpa using hfx
        | succ j => exact ih zs hrec j (by simpa using h1) (by simpa using h2)

theorem mapOption_none_of_mem {α β : Type} (f : α → Option β) (l : List α) (x : α)
    (hx : x ∈ l) (hfx : f x = none) : mapOption f l = none := by
  induction l with
  | nil => cases hx
  | cons a as ih =>
    unfold mapOption
    rcases List.mem_cons.mp hx with rfl | hmem
    · rw [hfx]
    · cases hfa : f a with
      | none => rfl
      | some y => rw [ih hmem]

theorem buildEvent_none_iff (cols row : List String) :
    buildEvent cols row = none ↔
      parseTimestamp (cellOf cols row "Timestamp") = none := by
  unfold buildEvent
  cases h : parseTimestamp (cellOf cols row "Timestamp") <;> simp

theorem buildEvent_some_fields (cols row : List String) (ev : Event)
    (h : buildEvent cols row = some ev) :
    ev.user_id = cellOf cols row "User_ID" ∧
    ev.session_id = cellOf cols row "Session_ID" ∧
    parseTimestamp (cellOf cols row "Timestamp") = some ev.timestamp ∧
    ev.page_type = cellOf cols row "Page_Type" ∧
    ev.product_id = cellOf cols row "Product_ID" ∧
    ev.category = cellOf cols row "Category" ∧
    ev.action = cellOf cols row "Action" ∧
    ev.device_type = cellOf cols row "Device_Type" ∧
    ev.platform = cellOf cols row "Platform" := by
  unfold buildEvent at h
  cases hts : parseTimestamp (cellOf cols row "Timestamp") with
  | none => rw [hts] at h; cases h
  | some ts =>
    rw [hts] at h
    cases h
    exact ⟨rfl, rfl, rfl, rfl, rfl, rfl, rfl, rfl, rfl⟩

/-- C8: the loader yields a validated table or an error and never both;
a missing required column yields the validation error, malformed input
or an unparseable Timestamp yields the parse error, on success only the
Timestamp field is coerced while the other eight fields pass through
unchanged, and the handler invokes no analytic pass on invalid input. -/
theorem claimC8 : ClaimC8 := by
  unfold ClaimC8
  refine ⟨?_, rfl, ?_, ?_, ?_, ?_⟩
  · intro input
    cases input with
    | malformed => simp [load_and_validate_data]
    | table cols rows =>
      simp only [load_and_validate_data]
      by_cases hc : ∀ c ∈ required_columns, c ∈ cols
      · rw [if_pos hc]
        cases h : mapOption (buildEvent cols) rows <;> simp
      · rw [if_neg hc]
        simp
  · intro cols rows hc
    simp only [load_and_validate_data]
    rw [if_neg hc]
  · intro cols rows hc hbad
    rcases hbad with ⟨row, hrow, hts⟩
    simp only [load_and_validate_data]
    rw [if_pos hc,
      mapOption_none_of_mem (buildEvent cols) rows row hrow
        ((buildEvent_none_iff cols row).mpr hts)]
  · intro cols rows evs h
    have hmo : mapOption (buildEvent cols) rows = some evs := by
      simp only [load_and_validate_data] at h
      by_cases hc : ∀ c ∈ required_columns, c ∈ cols
      · rw [if_pos hc] at h
        cases hm : mapOption (buildEvent cols) rows with
        | none => rw [hm] at h; simp at h
        | some zs =>
          rw [hm] at h
          simp only [Prod.mk.injEq, Option.some.injEq] at h
          rw [h.1]
      · rw [if_neg hc] at h
        simp at h
    refine ⟨mapOption_some_length _ _ _ hmo, ?_⟩
    intro i h1 h2
    exact buildEvent_some_fields _ _ _ (mapOption_some_get _ _ _ hmo i h1 h2)
  · intro input e he
    unfold runApp
    cases hl : load_and_validate_data input with
    | mk a b =>
      rw [hl] at he
      simp only at he
      subst he
      cases a <;> rfl

theorem claimC8_witness :
    load_and_validate_data rawMissingCol = (none, some ErrKind.validationError) ∧
    load_and_validate_data rawBadTs = (none, some ErrKind.parseError) ∧
    runApp RawInput.malformed = (none, some ErrKind.parseError) :=
  ⟨claimC8.2.2.1 ["User_ID"] [["u"]] (by decide),
   claimC8.2.2.2.1 required_columns
     [["u1", "s1", "xx", "Home", "p1", "Books", "View", "Desktop", "Web"]]
     (by decide) (by decide),
   claimC8.2.2.2.2.2 RawInput.malformed ErrKind.parseError rfl⟩
